import Mathlib

/-!
Verification development for the caf_core ownership + transaction engine.

The JavaScript sources are embedded shallowly:
* `json_rpc.js` message envelopes become the inductive `Msg`;
* the default transactional methods of `ca_default_methods.js` and the
  message pipeline of `gen_ca` (`setupInQueue`, `handleError`, `process`)
  become pure functions over an explicit `CA` state, with the outcome of
  the asynchronous collaborators (application method, child prepare,
  checkpoint write, commit) supplied as an `Outcomes` record;
* the Lua scripts of `plug_checkpoint_lua` and its coalescing layer become
  pure functions over an explicit `Store` (redis modelled as association
  lists for lease owners, lease TTLs and data keys).
-/

/-- A JavaScript value, as far as the engine observes it: enough structure
to express JS truthiness. Application state is opaque to the engine (it is
only copied, serialized and restored, never inspected), so the atomic value
forms suffice for this embedding. -/
inductive JsVal where
  | undef
  | null
  | bool (b : Bool)
  | num (n : Int)
  | str (s : String)
deriving DecidableEq, Repr

/-- JS truthiness of a value (`NaN` is not representable in the model). -/
def truthy : JsVal → Bool
  | .undef => false
  | .null => false
  | .bool b => b
  | .num n => n != 0
  | .str s => s != ""

/-- Message meta-data (`json_rpc.js`): the implicit first argument of every
request/notification and the first entry of reply/error payloads. The JS
fields `to` and `from` are called `dest` and `sender` here because both are
reserved tokens in Lean. -/
structure Meta where
  token : String
  sessionId : String
  dest : String
  sender : String
deriving DecidableEq, Repr

/-- The message envelopes built by `json_rpc.js`. A notification carries no
`id`; a system error echoes the originating request's `id`, which is absent
when the original message was a notification. `payload` is the optional
extra data argument of `systemError`. Request parameters beyond meta-data
are not inspected by the embedded code and are omitted. -/
inductive Msg where
  | request (meta : Meta) (method : String) (id : String)
  | notification (meta : Meta) (method : String)
  | appReply (meta : Meta) (error : JsVal) (data : JsVal) (id : String)
  | sysError (meta : Meta) (code : Int) (message : String)
      (payload : Option String) (id : Option String)
deriving DecidableEq, Repr

namespace ERROR_CODES

def parseError : Int := -32700
def invalidRequest : Int := -32600
def methodNotFound : Int := -32601
def invalidParams : Int := -32602
def internalError : Int := -32603
def noSuchCA : Int := -32000
def shutdownCA : Int := -32001
def checkpointFailure : Int := -32002
def prepareFailure : Int := -32003
def exceptionThrown : Int := -32004
def commitFailure : Int := -32005
def forceRedirect : Int := -32006
def notAuthorized : Int := -32007

end ERROR_CODES

/-- Embeds `json_rpc.getMeta` restricted to the envelope forms of `Msg`. -/
def getMeta : Msg → Meta
  | .request m _ _ => m
  | .notification m _ => m
  | .appReply m _ _ _ => m
  | .sysError m _ _ _ _ => m

/-- The `id` field of a message (`undefined` modelled as `none`). -/
def msgId : Msg → Option String
  | .request _ _ id => some id
  | .notification _ _ => none
  | .appReply _ _ _ id => some id
  | .sysError _ _ _ _ id => id

/-- Embeds `json_rpc.isNotification` on envelopes built by the library. -/
def isNotificationMsg : Msg → Bool
  | .notification _ _ => true
  | _ => false

/-- Embeds `json_rpc.isRequest` on envelopes built by the library: the `id` must be
truthy (a non-empty string). -/
def isRequestMsg : Msg → Bool
  | .request _ _ id => id != ""
  | _ => false

/-- Embeds `json_rpc.isAppReply`: a reply whose `result` is the three-element
`[meta, error, data]` tuple and whose `id` is truthy. -/
def isAppReply : Msg → Bool
  | .appReply _ _ _ id => id != ""
  | _ => false

/-- Embeds `json_rpc.isSystemError`: requires a truthy `error.code` and a truthy
`id` (the two-element `data` tuple always holds by construction). -/
def isSystemError : Msg → Bool
  | .sysError _ code _ _ id => code != 0 && id.isSome
  | _ => false

/-- Embeds `json_rpc.getSystemErrorCode`: `undefined` (`none`) unless the message
passes `isSystemError`. -/
def getSystemErrorCode (m : Msg) : Option Int :=
  match m with
  | .sysError _ code _ _ id => if code != 0 && id.isSome then some code else none
  | _ => none

/-- Embeds `newReplyMeta`: echo token/session and swap `to`/`from`. -/
def newReplyMeta (m : Meta) : Meta :=
  { token := m.token, sessionId := m.sessionId, dest := m.sender, sender := m.dest }

/-- Embeds `json_rpc.appReply`: an application-level `(error, data)` reply to a
request. -/
def appReplyOf (req : Msg) (error data : JsVal) : Msg :=
  .appReply (newReplyMeta (getMeta req)) error data ((msgId req).getD "")

/-- Embeds `json_rpc.systemError`: a system error echoing the request's `id`. -/
def systemErrorOf (req : Msg) (code : Int) (message : String) : Msg :=
  .sysError (newReplyMeta (getMeta req)) code message none (msgId req)

/-- Embeds `json_rpc.isErrorRecoverable`: true exactly for the system error codes
it enumerates (`noSuchCA`, `shutdownCA`, `checkpointFailure`,
`prepareFailure`, `commitFailure`, `internalError`). -/
def isErrorRecoverable (msg : Msg) : Bool :=
  let code := getSystemErrorCode msg
  (code == some ERROR_CODES.noSuchCA) ||
  (code == some ERROR_CODES.shutdownCA) ||
  (code == some ERROR_CODES.checkpointFailure) ||
  (code == some ERROR_CODES.prepareFailure) ||
  (code == some ERROR_CODES.commitFailure) ||
  (code == some ERROR_CODES.internalError)

/-!
## The CA and its transactional pipeline

`gen_ca` (with a transactional child running the default methods of
`ca_default_methods.js`) is embedded as a state record plus pure functions.
The asynchronous collaborators of one message's pipeline run — the
application method located by `json_rpc.call`, the children's `prepare`,
the checkpoint write `$.cp.updateState` and the children's `commit` — are
modelled by an `Outcomes` record giving the result each one completes with.
-/

/-- The observable state of a CA with one default transactional child.
`stateBackup` models `this.state_backup_ = JSON.stringify(this.state)`:
`JSON.stringify` returns `undefined` (falsy) on an undefined state and a
non-empty (truthy) string otherwise, and `JSON.parse` inverts it, so the
backup is stored as the value itself, with `none` for the undefined case. -/
structure CA where
  name : String := "ca"
  state : JsVal := .undef
  version : JsVal := .undef
  stateBackup : Option JsVal := none
  versionBackup : JsVal := .undef
  isShutdown : Bool := false
deriving DecidableEq, Repr

/-- Embeds `ca_default_methods.__ca_begin__`: snapshot `this.state` (serialized)
and `this.version` into the backup fields. -/
def caBegin (ca : CA) : CA :=
  { ca with
    stateBackup := if ca.state = .undef then none else some ca.state,
    versionBackup := ca.version }

/-- Embeds `ca_default_methods.__ca_abort__`: restore `this.state` from the
serialized backup if the backup is truthy, and `this.version` from its
backup if that backup is truthy; falsy backups are silently skipped. -/
def caAbort (ca : CA) : CA :=
  let ca1 := match ca.stateBackup with
    | some s => { ca with state := s }
    | none => ca
  if truthy ca1.versionBackup then { ca1 with version := ca1.versionBackup }
  else ca1

/-- Embeds `gen_component.shutdown` as observed on the CA: sets the flag. -/
def caShutdown (ca : CA) : CA := { ca with isShutdown := true }

/-- The completion results of the asynchronous collaborators during one
message: the application method leaves `this.state`/`this.version` at
`newState`/`newVersion` and completes with `(callError, callData)`; a
`some` in `prepareError`/`cpError`/`commitError` is the error that phase's
callback reports. -/
structure Outcomes where
  newState : JsVal := .undef
  newVersion : JsVal := .undef
  callError : JsVal := .null
  callData : JsVal := .null
  prepareError : Option String := none
  cpError : Option String := none
  commitError : Option String := none
deriving DecidableEq, Repr

/-- Result of `gen_ca`'s `handleError`. `crashed` marks the path where the
`assert.ok(isAppReply || isSystemError)` guard would throw (reachable only
for notification-originated errors, whose wrapped system error lacks an
`id`). -/
structure HandleResult where
  reply : Msg
  ca : CA
  abortCalled : Bool
  crashed : Bool
deriving DecidableEq, Repr

/-- Embeds `newMsg` in `handleError`: `exception ? exception.toString() :
error.toString()`; a message object stringifies to "[object Object]". -/
def newShutdownText (exception : Option String) : String :=
  exception.getD "[object Object]"

/-- Embeds `gen_ca`'s `handleError`: commit/checkpoint failures force a shutdown
and reply with a `shutdownCA` system error; every other error aborts the
transaction and is returned to the caller as-is (or as `exceptionThrown`
when the source was an exception). The default child's abort never fails,
so the shutdown-on-abort-failure branch is unreachable here. -/
def handleError (ca : CA) (msg : Msg) (error : Msg) (exception : Option String) :
    HandleResult :=
  let code := getSystemErrorCode error
  if code = some ERROR_CODES.commitFailure ∨
     code = some ERROR_CODES.checkpointFailure then
    { reply := systemErrorOf msg ERROR_CODES.shutdownCA (newShutdownText exception),
      ca := caShutdown ca, abortCalled := false, crashed := false }
  else
    let ca2 := caAbort ca
    match exception with
    | some e =>
      { reply := systemErrorOf msg ERROR_CODES.exceptionThrown e,
        ca := ca2, abortCalled := true, crashed := false }
    | none =>
      if isAppReply error || isSystemError error then
        { reply := error, ca := ca2, abortCalled := true, crashed := false }
      else
        { reply := error, ca := ca2, abortCalled := true, crashed := true }

/-- The outcome of one message run: the reply handed to the queue callback
(`none` when a notification commits with a null response), the CA state
afterwards, whether abort/commit ran, and the snapshot written to the
checkpoint store, if any. -/
structure PipelineResult where
  reply : Option Msg
  ca : CA
  abortCalled : Bool
  commitCalled : Bool
  persisted : Option (JsVal × JsVal)
  crashed : Bool
deriving DecidableEq, Repr

/-- Lift a `handleError` result into a pipeline result. -/
def ofHandle (h : HandleResult) (commitCalled : Bool)
    (persisted : Option (JsVal × JsVal)) : PipelineResult :=
  { reply := some h.reply, ca := h.ca, abortCalled := h.abortCalled,
    commitCalled := commitCalled, persisted := persisted, crashed := h.crashed }

/-- The prepare / update-state / commit tail of `setupInQueue`'s waterfall:
each phase's error is wrapped by `wrapSystemError` with its code and then
routed to `handleError`; on success the commit decision snapshot is the
serialized `(state, version)` pair produced by the default `prepare`. -/
def afterCall (ca : CA) (msg : Msg) (o : Outcomes) (response : Option Msg) :
    PipelineResult :=
  match o.prepareError with
  | some e =>
    ofHandle (handleError ca msg
      (systemErrorOf msg ERROR_CODES.prepareFailure
        ("prepareFailed " ++ ca.name ++ " " ++ e)) none) false none
  | none =>
    let snap := (ca.state, ca.version)
    match o.cpError with
    | some e =>
      ofHandle (handleError ca msg
        (systemErrorOf msg ERROR_CODES.checkpointFailure
          ("updateState " ++ ca.name ++ " " ++ e)) none) false none
    | none =>
      match o.commitError with
      | some e =>
        ofHandle (handleError ca msg
          (systemErrorOf msg ERROR_CODES.commitFailure
            ("commitFailure " ++ ca.name ++ " " ++ e)) none) true (some snap)
      | none =>
        { reply := response, ca := ca, abortCalled := false,
          commitCalled := true, persisted := some snap, crashed := false }

/-- Embeds `setupInQueue`'s per-message worker (the `async.waterfall` in `mainF`):
begin, re-check shutdown, dispatch the method via `json_rpc.call` (its
`(error, data)` completion builds the reply; a truthy error short-circuits
the waterfall for a request, while for a notification the null reply lets
the waterfall continue), then prepare, checkpoint and commit. -/
def processMsg (ca : CA) (msg : Msg) (o : Outcomes) : PipelineResult :=
  let ca1 := caBegin ca
  if ca1.isShutdown then
    ofHandle (handleError ca1 msg
      (systemErrorOf msg ERROR_CODES.shutdownCA
        ("CA " ++ ca1.name ++ " shutdown1")) none) false none
  else
    let ca2 := { ca1 with state := o.newState, version := o.newVersion }
    if truthy o.callError then
      if isNotificationMsg msg then
        afterCall ca2 msg o none
      else
        ofHandle (handleError ca2 msg (appReplyOf msg o.callError o.callData) none)
          false none
    else
      afterCall ca2 msg o
        (if isNotificationMsg msg then none
         else some (appReplyOf msg o.callError o.callData))

/-- Embeds `gen_ca.process`: a message for a shutdown CA is rejected immediately
with a `shutdownCA` system error and never enqueued; otherwise it is
enqueued and eventually runs `processMsg`. -/
def caProcess (ca : CA) (msg : Msg) (o : Outcomes) : PipelineResult :=
  if ca.isShutdown then
    { reply := some (systemErrorOf msg ERROR_CODES.shutdownCA
        ("CA " ++ ca.name ++ " shutdown0")),
      ca := ca, abortCalled := false, commitCalled := false,
      persisted := none, crashed := false }
  else processMsg ca msg o

/-!
## The scripted checkpoint store (`plug_checkpoint_lua`)

Redis is modelled as association lists: the bare CA id key holds the lease
owner (`owners`) with its expiration (`ttl`), and `"data:" ++ id` holds the
serialized state (`data`). Each Lua script executes atomically in redis, so
each script is one pure function from store to store — there is no state in
between the ownership check and the data operation.
-/

/-- Association-list lookup (redis `get`/`mget` on one key; `nil` is
`none`). -/
def alGet {α : Type} (l : List (String × α)) (k : String) : Option α :=
  (l.find? (fun p => p.1 = k)).map (·.2)

/-- Association-list update (redis `set`): replace in place or append. -/
def alSet {α : Type} (l : List (String × α)) (k : String) (v : α) :
    List (String × α) :=
  match l with
  | [] => [(k, v)]
  | p :: rest => if p.1 = k then (k, v) :: rest else p :: alSet rest k v

/-- Association-list removal (redis `del` on one key). -/
def alDel {α : Type} (l : List (String × α)) (k : String) :
    List (String × α) :=
  match l with
  | [] => []
  | p :: rest => if p.1 = k then alDel rest k else p :: alDel rest k

/-- The checkpoint/lease store. -/
structure Store where
  owners : List (String × String)
  ttl : List (String × Nat)
  data : List (String × String)
deriving DecidableEq, Repr

/-- Embeds `luaPreamble`: scan `KEYS` in order against the pre-read owners; the
first key whose owner is not the calling node id (an absent binding reads
as `"nobody"`) aborts the script with that key and its actual owner. -/
def checkOwners (owners : List (String × String)) (keys : List String)
    (nodeId : String) : Option (String × String) :=
  match keys with
  | [] => none
  | k :: rest =>
    match alGet owners k with
    | some o => if o = nodeId then checkOwners owners rest nodeId else some (k, o)
    | none => some (k, "nobody")

/-- The error a Lua script reports: an ownership conflict naming the
conflicting key and its actual owner, or the arity mismatch guard of
`luaUpdateState`. -/
inductive LuaErr where
  | notOwner (id owner nodeId : String)
  | wrongArity (given expected : Nat)
deriving DecidableEq, Repr

/-- The `mset` performed by `luaUpdateState` on the `data:` keys. -/
def msetData (d : List (String × String)) (keys values : List String) :
    List (String × String) :=
  (List.zip keys values).foldl (fun acc kv => alSet acc ("data:" ++ kv.1) kv.2) d

/-- Embeds `luaUpdateState`: ownership-guarded bulk `mset` of CA states; an
ownership conflict (or arity mismatch) returns an error with no change. -/
def luaUpdateState (st : Store) (keys : List String) (nodeId : String)
    (values : List String) : Except LuaErr String × Store :=
  match checkOwners st.owners keys nodeId with
  | some ko => (.error (.notOwner ko.1 ko.2 nodeId), st)
  | none =>
    if keys.length = values.length then
      (.ok "OK", { st with data := msetData st.data keys values })
    else
      (.error (.wrongArity values.length keys.length), st)

/-- Embeds `luaDeleteState`: ownership-guarded bulk `del` of CA states. -/
def luaDeleteState (st : Store) (keys : List String) (nodeId : String) :
    Except LuaErr Unit × Store :=
  match checkOwners st.owners keys nodeId with
  | some ko => (.error (.notOwner ko.1 ko.2 nodeId), st)
  | none =>
    (.ok (), { st with data := keys.foldl (fun acc k => alDel acc ("data:" ++ k)) st.data })

/-- Embeds `luaGetState`: ownership-guarded bulk `mget` of CA states. -/
def luaGetState (st : Store) (keys : List String) (nodeId : String) :
    Except LuaErr (List (Option String)) × Store :=
  match checkOwners st.owners keys nodeId with
  | some ko => (.error (.notOwner ko.1 ko.2 nodeId), st)
  | none => (.ok (keys.map (fun k => alGet st.data ("data:" ++ k))), st)

/-- The loop of `luaGrabLease` over the pre-read owners `owners0`: an
absent binding is written (`set` then `expire`) and reports `false`
(`none`); a self-owned binding reports `false` without touching the store;
a foreign binding reports its owner. -/
def grabLoop (owners0 : List (String × String)) (nodeId : String)
    (timeout : Nat) : List String → Store → List (Option String) × Store
  | [], s => ([], s)
  | k :: rest, s =>
    match alGet owners0 k with
    | none =>
      let s2 := { s with owners := alSet s.owners k nodeId,
                         ttl := alSet s.ttl k timeout }
      let r := grabLoop owners0 nodeId timeout rest s2
      (none :: r.1, r.2)
    | some o =>
      if o = nodeId then
        let r := grabLoop owners0 nodeId timeout rest s
        (none :: r.1, r.2)
      else
        let r := grabLoop owners0 nodeId timeout rest s
        (some o :: r.1, r.2)

/-- Embeds `luaGrabLease`: the owners are read once with `mget`, then the loop
runs over that snapshot. -/
def luaGrabLease (st : Store) (keys : List String) (nodeId : String)
    (timeout : Nat) : List (Option String) × Store :=
  grabLoop st.owners nodeId timeout keys st

/-- Outcome of the plug-level `grabLease` callback. -/
inductive GrabOutcome where
  | ok
  | remoteNode (owner : String)
deriving DecidableEq, Repr

/-- Embeds `plug_checkpoint_lua.grabLease` (single id): a string first entry in
the script's reply is a foreign owner (`{remoteNode: ...}`, a normal
non-exceptional outcome); anything else is success. -/
def grabLease (st : Store) (id : String) (nodeId : String) (timeout : Nat) :
    GrabOutcome × Store :=
  let r := luaGrabLease st [id] nodeId timeout
  match r.1.head? with
  | some (some owner) => (.remoteNode owner, r.2)
  | _ => (.ok, r.2)

/-- The loop of `luaRenewLeases` over the pre-read owners `owners0`: a key
owned by the caller has its expiration refreshed; any other key is added to
`gone` untouched. -/
def renewLoop (owners0 : List (String × String)) (nodeId : String)
    (timeout : Nat) : List String → Store → List String × Store
  | [], s => ([], s)
  | k :: rest, s =>
    if alGet owners0 k = some nodeId then
      renewLoop owners0 nodeId timeout rest { s with ttl := alSet s.ttl k timeout }
    else
      let r := renewLoop owners0 nodeId timeout rest s
      (k :: r.1, r.2)

/-- Embeds `luaRenewLeases`: owners are read once with `mget`, then the loop runs
over that snapshot, returning the keys that could not be renewed. -/
def luaRenewLeases (st : Store) (keys : List String) (nodeId : String)
    (timeout : Nat) : List String × Store :=
  renewLoop st.owners nodeId timeout keys st

/-- Embeds `plug_checkpoint_lua.renewLeases`: the `assert.ok(ids.length < 8000)`
guard throws before any store operation; below the bound the scripted
renewal runs. -/
def renewLeases (st : Store) (ids : List String) (nodeId : String)
    (timeout : Nat) : Except String (List String × Store) :=
  if ids.length < 8000 then .ok (luaRenewLeases st ids nodeId timeout)
  else .error "LUA unpack limited to 8000, need to fix"

/-!
## Write coalescing (`plug_checkpoint_lua.updateState`)

The in-memory pending batch and its flush logic are pure state; the store
writes and `process.nextTick` continuations a call issues are reported as
explicit action lists. Callbacks are identified by numbers.
-/

/-- An entry of `pendingUpdates`. -/
structure Pending where
  id : String
  value : String
  cb : Nat
deriving DecidableEq, Repr

/-- The coalescing state of the plug. -/
structure CpPlug where
  maxPendingUpdates : Nat := 1
  pendingUpdates : List Pending := []
deriving DecidableEq, Repr

/-- An immediate store operation issued by the plug: one
`doLua('updateState', ids, values, ...)` round trip whose completion is
shared by `cbs`. -/
structure WriteOp where
  ids : List String
  values : List String
  cbs : List Nat
deriving DecidableEq, Repr

/-- Embeds `flushUpdateState(force)`: flush the whole batch as one multi-id write
when its length reached `maxPendingUpdates`, or when forced (cron tick)
and non-empty. -/
def flushUpdateState (p : CpPlug) (force : Bool) : CpPlug × List WriteOp :=
  if p.maxPendingUpdates ≤ p.pendingUpdates.length ∨
     (force = true ∧ 0 < p.pendingUpdates.length) then
    ({ p with pendingUpdates := [] },
     [{ ids := p.pendingUpdates.map (·.id),
        values := p.pendingUpdates.map (·.value),
        cbs := p.pendingUpdates.map (·.cb) }])
  else (p, [])

/-- Embeds `plug_checkpoint_lua.updateState`: with `maxPendingUpdates = 1` a
single-id write is issued immediately; otherwise the entry joins the
pending batch and a non-forced flush is attempted. -/
def updateState (p : CpPlug) (id value : String) (cb : Nat) :
    CpPlug × List WriteOp :=
  if p.maxPendingUpdates = 1 then
    (p, [{ ids := [id], values := [value], cbs := [cb] }])
  else
    flushUpdateState
      { p with pendingUpdates := p.pendingUpdates ++ [{ id := id, value := value, cb := cb }] }
      false

/-- The update cron's periodic task: `flushUpdateState(true)`. -/
def cronTick (p : CpPlug) : CpPlug × List WriteOp :=
  flushUpdateState p true

/-- A continuation the flush callback `cb1` schedules with
`process.nextTick` (never synchronously): either one individual single-id
`updateState` resubmission of a failed batch entry, or the notification of
one queued caller with the shared flush result. -/
inductive Deferred where
  | retryOne (id value : String) (cb : Nat)
  | notify (cb : Nat) (err : Option LuaErr)
deriving DecidableEq, Repr

/-- The flush completion `cb1`: a failed batched write resubmits every
entry individually on the next tick; a successful one notifies every
queued caller with the shared (null) error on the next tick. -/
def onFlushResult (w : WriteOp) (err : Option LuaErr) : List Deferred :=
  match err with
  | some _ =>
    (List.zip (List.zip w.ids w.values) w.cbs).map
      (fun x => .retryOne x.1.1 x.1.2 x.2)
  | none => w.cbs.map (fun c => .notify c none)

/-!
## Helper lemmas
-/

theorem alGet_cons {α : Type} (p : String × α) (rest : List (String × α))
    (k' : String) :
    alGet (p :: rest) k' = if p.1 = k' then some p.2 else alGet rest k' := by
  by_cases h : p.1 = k' <;> simp [alGet, List.find?, h]

theorem alGet_alSet {α : Type} (l : List (String × α)) (k k' : String) (v : α) :
    alGet (alSet l k v) k' = if k = k' then some v else alGet l k' := by
  induction l with
  | nil =>
    show alGet [(k, v)] k' = _
    rw [alGet_cons]
  | cons p rest ih =>
    by_cases hp : p.1 = k
    · simp only [alSet, if_pos hp]
      rw [alGet_cons, alGet_cons]
      by_cases hk : k = k' <;> simp [hp, hk]
    · simp only [alSet, if_neg hp]
      rw [alGet_cons, ih, alGet_cons]
      by_cases hpk : p.1 = k'
      · have hk : ¬k = k' := fun he => hp (he ▸ hpk)
        simp [hpk, hk]
      · simp [hpk]

theorem checkOwners_eq_none_iff (owners : List (String × String))
    (keys : List String) (nodeId : String) :
    checkOwners owners keys nodeId = none ↔
      ∀ k ∈ keys, alGet owners k = some nodeId := by
  induction keys with
  | nil => simp [checkOwners]
  | cons k rest ih =>
    rcases h : alGet owners k with _ | o
    · simp [checkOwners, h]
    · by_cases ho : o = nodeId
      · subst ho
        simp [checkOwners, h, ih]
      · simp [checkOwners, h, ho]

theorem checkOwners_eq_some (owners : List (String × String))
    (keys : List String) (nodeId k o : String)
    (h : checkOwners owners keys nodeId = some (k, o)) :
    k ∈ keys ∧ alGet owners k ≠ some nodeId ∧
      o = (alGet owners k).getD "nobody" := by
  induction keys with
  | nil => simp [checkOwners] at h
  | cons k0 rest ih =>
    rw [checkOwners] at h
    rcases h0 : alGet owners k0 with _ | o0 <;> rw [h0] at h <;> simp only [] at h
    · obtain ⟨hk, ho⟩ := Prod.mk.injEq .. ▸ Option.some.injEq .. ▸ h
      subst hk; subst ho
      simp [h0]
    · by_cases hno : o0 = nodeId
      · rw [if_pos hno] at h
        obtain ⟨h1, h2, h3⟩ := ih h
        exact ⟨List.mem_cons_of_mem _ h1, h2, h3⟩
      · rw [if_neg hno] at h
        obtain ⟨hk, ho⟩ := Prod.mk.injEq .. ▸ Option.some.injEq .. ▸ h
        subst hk; subst ho
        simp [h0, hno]

/-!
## Claim C6 — recoverable system-error codes
-/

/-- Claim C6, counterexample: a system error with code `commitFailure` is
classified recoverable by `isErrorRecoverable`, although the claim states
it must return false for that code. -/
theorem c6_counterexample :
    getSystemErrorCode
        (Msg.sysError ⟨"t", "s", "a", "b"⟩ ERROR_CODES.commitFailure "m" none
          (some "1")) = some ERROR_CODES.commitFailure ∧
    isErrorRecoverable
        (Msg.sysError ⟨"t", "s", "a", "b"⟩ ERROR_CODES.commitFailure "m" none
          (some "1")) = true := by
  constructor <;> decide

/-- Claim C6 (amended): `isErrorRecoverable` returns true exactly when the
message is a system error whose code is `noSuchCA`, `shutdownCA`,
`checkpointFailure`, `prepareFailure`, `commitFailure` or `internalError`;
for every other message (including a system error with any other code)
it returns false. -/
theorem c6_recoverable_codes (msg : Msg) :
    isErrorRecoverable msg = true ↔
      (getSystemErrorCode msg = some ERROR_CODES.noSuchCA ∨
       getSystemErrorCode msg = some ERROR_CODES.shutdownCA ∨
       getSystemErrorCode msg = some ERROR_CODES.checkpointFailure ∨
       getSystemErrorCode msg = some ERROR_CODES.prepareFailure ∨
       getSystemErrorCode msg = some ERROR_CODES.commitFailure ∨
       getSystemErrorCode msg = some ERROR_CODES.internalError) := by
  simp only [isErrorRecoverable, Bool.or_eq_true, beq_iff_eq]
  tauto

/-!
## Claim C10 — input-size guard of the scripted `renewLeases`
-/

/-- Claim C10: the plug-level `renewLeases` runs the scripted renewal
whenever the ids list has fewer than 8000 elements, and fails its guarding
assertion (before any store operation) for 8000 or more. -/
theorem c10_renew_leases_size_guard (st : Store) (ids : List String)
    (nodeId : String) (timeout : Nat) :
    (ids.length < 8000 →
      renewLeases st ids nodeId timeout =
        .ok (luaRenewLeases st ids nodeId timeout)) ∧
    (8000 ≤ ids.length →
      renewLeases st ids nodeId timeout =
        .error "LUA unpack limited to 8000, need to fix") := by
  refine ⟨fun h => ?_, fun h => ?_⟩
  · simp [renewLeases, h]
  · simp [renewLeases, Nat.not_lt.mpr h]

/-- Witness for C10 at concrete inputs: a one-element list passes the
guard, a list of 8000 ids trips it. -/
theorem c10_witness :
    renewLeases ⟨[("a", "n")], [("a", 5)], []⟩ ["a"] "n" 7 =
      .ok (luaRenewLeases ⟨[("a", "n")], [("a", 5)], []⟩ ["a"] "n" 7) ∧
    renewLeases ⟨[], [], []⟩ (List.replicate 8000 "a") "n" 7 =
      .error "LUA unpack limited to 8000, need to fix" :=
  ⟨(c10_renew_leases_size_guard _ _ _ _).1 (by decide),
   (c10_renew_leases_size_guard _ _ _ _).2 (by rw [List.length_replicate])⟩

/-!
## Claim C4 — `grabLease`
-/

/-- Claim C4, counterexample: when the caller already owns the lease (here
node `n1` owns id `a` with 5 seconds left), `grabLease` succeeds but the
binding is left completely untouched — in particular its expiration stays
at 5 and is not rewritten to the requested future timeout 100, although
the claim states that on every success, including this no-op case, the
binding is (re)written with a future expiration. -/
theorem c4_counterexample :
    grabLease ⟨[("a", "n1")], [("a", 5)], []⟩ "a" "n1" 100 =
      (GrabOutcome.ok, ⟨[("a", "n1")], [("a", 5)], []⟩) ∧
    alGet (⟨[("a", "n1")], [("a", 5)], []⟩ : Store).ttl "a" = some 5 ∧
    (5 : Nat) ≠ 100 := by
  refine ⟨?_, ?_, ?_⟩ <;> decide

/-- Claim C4 (amended): `grabLease(id, timeout)` succeeds exactly when no
lease binding exists for `id` or the existing binding already names the
caller's node; otherwise it completes with the current owner
(`{remoteNode: owner}`) as a normal outcome and leaves the whole store
unchanged. When no binding existed, success writes the binding with the
caller's node id and the fresh expiration; when the caller already owned
the lease, success leaves the binding and its expiration untouched. -/
theorem c4_grab_lease_behavior (st : Store) (id nodeId : String)
    (timeout : Nat) :
    ((grabLease st id nodeId timeout).1 = GrabOutcome.ok ↔
      (alGet st.owners id = none ∨ alGet st.owners id = some nodeId)) ∧
    (alGet st.owners id = none →
      grabLease st id nodeId timeout =
        (GrabOutcome.ok,
         { st with owners := alSet st.owners id nodeId,
                   ttl := alSet st.ttl id timeout })) ∧
    (alGet st.owners id = some nodeId →
      grabLease st id nodeId timeout = (GrabOutcome.ok, st)) ∧
    (∀ o, alGet st.owners id = some o → o ≠ nodeId →
      grabLease st id nodeId timeout = (GrabOutcome.remoteNode o, st)) := by
  rcases h : alGet st.owners id with _ | o
  · simp [grabLease, luaGrabLease, grabLoop, h]
  · by_cases ho : o = nodeId
    · subst ho
      simp [grabLease, luaGrabLease, grabLoop, h]
    · simp [grabLease, luaGrabLease, grabLoop, h, ho]

/-- Witness for C4 at concrete inputs: grabbing an absent lease writes the
binding and expiration. -/
theorem c4_witness :
    grabLease ⟨[], [], [("data:a", "x")]⟩ "a" "n1" 10 =
      (GrabOutcome.ok,
       { (⟨[], [], [("data:a", "x")]⟩ : Store) with
         owners := alSet [] "a" "n1", ttl := alSet [] "a" 10 }) :=
  (c4_grab_lease_behavior ⟨[], [], [("data:a", "x")]⟩ "a" "n1" 10).2.1 (by decide)

/-!
## Claim C5 — `renewLeases` fidelity
-/

theorem renewLoop_owners (o0 : List (String × String)) (n : String) (t : Nat)
    (keys : List String) (s : Store) :
    (renewLoop o0 n t keys s).2.owners = s.owners := by
  induction keys generalizing s with
  | nil => rfl
  | cons k rest ih =>
    by_cases h : alGet o0 k = some n <;> simp [renewLoop, h, ih]

theorem renewLoop_data (o0 : List (String × String)) (n : String) (t : Nat)
    (keys : List String) (s : Store) :
    (renewLoop o0 n t keys s).2.data = s.data := by
  induction keys generalizing s with
  | nil => rfl
  | cons k rest ih =>
    by_cases h : alGet o0 k = some n <;> simp [renewLoop, h, ih]

theorem renewLoop_gone (o0 : List (String × String)) (n : String) (t : Nat)
    (keys : List String) (s : Store) :
    (renewLoop o0 n t keys s).1 =
      keys.filter (fun k => !(decide (alGet o0 k = some n))) := by
  induction keys generalizing s with
  | nil => rfl
  | cons k rest ih =>
    by_cases h : alGet o0 k = some n <;>
      simp [renewLoop, h, ih, List.filter_cons]

theorem renewLoop_ttl (o0 : List (String × String)) (n : String) (t : Nat)
    (keys : List String) (s : Store) (id : String) :
    alGet (renewLoop o0 n t keys s).2.ttl id =
      if id ∈ keys ∧ alGet o0 id = some n then some t
      else alGet s.ttl id := by
  induction keys generalizing s with
  | nil => simp [renewLoop]
  | cons k rest ih =>
    by_cases hk : alGet o0 k = some n
    · have h2 : (renewLoop o0 n t (k :: rest) s).2 =
          (renewLoop o0 n t rest { s with ttl := alSet s.ttl k t }).2 := by
        simp [renewLoop, hk]
      rw [h2, ih]
      by_cases ho : alGet o0 id = some n
      · by_cases hid : id = k
        · subst hid
          by_cases hm : id ∈ rest <;> simp [hm, ho, alGet_alSet]
        · have hki : ¬k = id := fun h => hid h.symm
          by_cases hm : id ∈ rest
          · simp [hm, ho]
          · simp [hm, ho, hid, hki, alGet_alSet]
      · by_cases hid : id = k
        · subst hid
          exact absurd hk ho
        · have hki : ¬k = id := fun h => hid h.symm
          simp [ho, alGet_alSet, hki]
    · have h2 : (renewLoop o0 n t (k :: rest) s).2 =
          (renewLoop o0 n t rest s).2 := by
        simp [renewLoop, hk]
      rw [h2, ih]
      by_cases ho : alGet o0 id = some n
      · by_cases hid : id = k
        · subst hid
          exact absurd ho hk
        · by_cases hm : id ∈ rest
          · simp [hm, ho]
          · simp [hm, ho, hid]
      · simp [ho]

/-- Claim C5: for every id in a `luaRenewLeases` call, an id owned by the
caller gets its expiration refreshed to the new timeout and is not
reported gone; an id not owned by the caller (including an absent/expired
binding) is reported in the gone list and is left completely untouched
(its binding and expiration are unchanged and it is never silently
renewed). The per-id check-then-renew runs inside one atomic script
invocation: the whole call is a single function of the store, so no other
write can interleave between the ownership read and the `expire`. -/
theorem c5_renew_leases_fidelity (st : Store) (ids : List String)
    (nodeId : String) (timeout : Nat) (id : String) (hmem : id ∈ ids) :
    (alGet st.owners id = some nodeId →
      id ∉ (luaRenewLeases st ids nodeId timeout).1 ∧
      alGet (luaRenewLeases st ids nodeId timeout).2.ttl id = some timeout ∧
      (luaRenewLeases st ids nodeId timeout).2.owners = st.owners) ∧
    (alGet st.owners id ≠ some nodeId →
      id ∈ (luaRenewLeases st ids nodeId timeout).1 ∧
      alGet (luaRenewLeases st ids nodeId timeout).2.ttl id = alGet st.ttl id ∧
      alGet (luaRenewLeases st ids nodeId timeout).2.owners id = alGet st.owners id) := by
  unfold luaRenewLeases
  refine ⟨fun h => ⟨?_, ?_, ?_⟩, fun h => ⟨?_, ?_, ?_⟩⟩
  · rw [renewLoop_gone]
    simp [List.mem_filter, h]
  · rw [renewLoop_ttl]
    simp [hmem, h]
  · exact renewLoop_owners ..
  · rw [renewLoop_gone]
    simp [List.mem_filter, hmem, h]
  · rw [renewLoop_ttl]
    simp [h]
  · rw [renewLoop_owners]

/-- Witness for C5 at concrete inputs: node `n` renews `a` (owned, ttl
refreshed to 9, not gone) while `b` (owned by `m`) is reported gone with
its binding untouched. -/
theorem c5_witness :
    ("a" ∉ (luaRenewLeases ⟨[("a", "n"), ("b", "m")], [("a", 1), ("b", 2)], []⟩ ["a", "b"] "n" 9).1 ∧
     alGet (luaRenewLeases ⟨[("a", "n"), ("b", "m")], [("a", 1), ("b", 2)], []⟩ ["a", "b"] "n" 9).2.ttl "a" = some 9 ∧
     (luaRenewLeases ⟨[("a", "n"), ("b", "m")], [("a", 1), ("b", 2)], []⟩ ["a", "b"] "n" 9).2.owners = [("a", "n"), ("b", "m")]) ∧
    ("b" ∈ (luaRenewLeases ⟨[("a", "n"), ("b", "m")], [("a", 1), ("b", 2)], []⟩ ["a", "b"] "n" 9).1 ∧
     alGet (luaRenewLeases ⟨[("a", "n"), ("b", "m")], [("a", 1), ("b", 2)], []⟩ ["a", "b"] "n" 9).2.ttl "b" = some 2 ∧
     alGet (luaRenewLeases ⟨[("a", "n"), ("b", "m")], [("a", 1), ("b", 2)], []⟩ ["a", "b"] "n" 9).2.owners "b" = some "m") := by
  have h1 := (c5_renew_leases_fidelity ⟨[("a", "n"), ("b", "m")], [("a", 1), ("b", 2)], []⟩
    ["a", "b"] "n" 9 "a" (by decide)).1 (by decide)
  have h2 := (c5_renew_leases_fidelity ⟨[("a", "n"), ("b", "m")], [("a", 1), ("b", 2)], []⟩
    ["a", "b"] "n" 9 "b" (by decide)).2 (by decide)
  refine ⟨⟨h1.1, h1.2.1, h1.2.2⟩, ⟨h2.1, ?_, ?_⟩⟩
  · rw [h2.2.1]; decide
  · rw [h2.2.2]; decide

/-!
## Claim C3 — batched ownership-guarded checkpoint operations
-/

theorem dataKey_inj (r k : String) (h : "data:" ++ r = "data:" ++ k) :
    r = k := by
  apply String.ext
  have h2 := congrArg String.data h
  rw [String.data_append, String.data_append] at h2
  exact List.append_cancel_left h2

theorem alGet_msetData_of_not_mem (keys : List String) :
    ∀ (values : List String) (d : List (String × String)) (x : String),
      (∀ k ∈ keys, ("data:" ++ k) ≠ x) →
      alGet (msetData d keys values) x = alGet d x := by
  induction keys with
  | nil => intro values d x _; simp [msetData]
  | cons k0 rest ih =>
    intro values d x hx
    cases values with
    | nil => simp [msetData]
    | cons v0 vrest =>
      have hstep : msetData d (k0 :: rest) (v0 :: vrest) =
          msetData (alSet d ("data:" ++ k0) v0) rest vrest := by
        simp [msetData, List.zip_cons_cons]
      rw [hstep, ih vrest _ x (fun k hk => hx k (List.mem_cons_of_mem _ hk))]
      rw [alGet_alSet]
      simp [hx k0 (List.mem_cons_self ..)]

theorem alGet_msetData (keys : List String) :
    ∀ (values : List String) (d : List (String × String)) (k v : String),
      keys.Nodup → (k, v) ∈ List.zip keys values →
      alGet (msetData d keys values) ("data:" ++ k) = some v := by
  induction keys with
  | nil => intro values d k v _ hv; simp at hv
  | cons k0 rest ih =>
    intro values d k v hnod hv
    cases values with
    | nil => simp at hv
    | cons v0 vrest =>
      have hstep : msetData d (k0 :: rest) (v0 :: vrest) =
          msetData (alSet d ("data:" ++ k0) v0) rest vrest := by
        simp [msetData, List.zip_cons_cons]
      rw [List.zip_cons_cons, List.mem_cons] at hv
      rcases hv with h1 | h1
      · obtain ⟨hk1, hv1⟩ := Prod.mk.injEq .. ▸ h1
        subst hk1; subst hv1
        have hnotin : k ∉ rest := (List.nodup_cons.mp hnod).1
        rw [hstep,
          alGet_msetData_of_not_mem rest vrest _ ("data:" ++ k)
            (fun r hr he => hnotin (dataKey_inj r k he ▸ hr))]
        rw [alGet_alSet]
        simp
      · exact hstep ▸ ih vrest _ k v (List.nodup_cons.mp hnod).2 h1

/-- Claim C3: each batched checkpoint operation (`luaUpdateState`,
`luaDeleteState`, `luaGetState`) either performs the requested data
operation for all ids (when every id in the batch is owned by the calling
node), or — as soon as any id's recorded owner differs from the caller
(an absent binding counts as owner "nobody") — fails with an
ownership-conflict error naming the first conflicting id and its actual
owner, leaving the store completely unchanged: no data mutation is
performed for any id of the batch. Each script is a single atomic function
of the store, so there is no window between the ownership check and the
data mutation. -/
theorem c3_batch_ownership_guard (st : Store) (keys values : List String)
    (nodeId : String) (hlen : keys.length = values.length)
    (hnod : keys.Nodup) :
    ((∀ k ∈ keys, alGet st.owners k = some nodeId) →
      luaUpdateState st keys nodeId values =
        (.ok "OK", { st with data := msetData st.data keys values }) ∧
      (∀ k v, (k, v) ∈ List.zip keys values →
        alGet (luaUpdateState st keys nodeId values).2.data ("data:" ++ k) =
          some v) ∧
      luaDeleteState st keys nodeId =
        (.ok (),
         { st with data := keys.foldl (fun acc k => alDel acc ("data:" ++ k)) st.data }) ∧
      luaGetState st keys nodeId =
        (.ok (keys.map (fun k => alGet st.data ("data:" ++ k))), st)) ∧
    (∀ k o, checkOwners st.owners keys nodeId = some (k, o) →
      k ∈ keys ∧ alGet st.owners k ≠ some nodeId ∧
      o = (alGet st.owners k).getD "nobody" ∧
      luaUpdateState st keys nodeId values = (.error (.notOwner k o nodeId), st) ∧
      luaDeleteState st keys nodeId = (.error (.notOwner k o nodeId), st) ∧
      luaGetState st keys nodeId = (.error (.notOwner k o nodeId), st)) ∧
    ((∃ k ∈ keys, alGet st.owners k ≠ some nodeId) →
      checkOwners st.owners keys nodeId ≠ none) := by
  refine ⟨fun hall => ?_, fun k o h => ?_, fun hex => ?_⟩
  · have hchk : checkOwners st.owners keys nodeId = none :=
      (checkOwners_eq_none_iff ..).mpr hall
    refine ⟨?_, ?_, ?_, ?_⟩
    · simp [luaUpdateState, hchk, hlen]
    · intro k v hv
      simp only [luaUpdateState, hchk, hlen, if_pos]
      exact alGet_msetData keys values st.data k v hnod hv
    · simp [luaDeleteState, hchk]
    · simp [luaGetState, hchk]
  · obtain ⟨h1, h2, h3⟩ := checkOwners_eq_some st.owners keys nodeId k o h
    exact ⟨h1, h2, h3, by simp [luaUpdateState, h], by simp [luaDeleteState, h],
      by simp [luaGetState, h]⟩
  · intro hnone
    obtain ⟨k, hk, hno⟩ := hex
    exact hno ((checkOwners_eq_none_iff ..).mp hnone k hk)

/-- Witness for C3 at concrete inputs: with both ids owned by node `n` the
batched update writes both data keys; with `b` owned by `m` the whole
batch fails naming `b` and `m` and the store is unchanged. -/
theorem c3_witness :
    (luaUpdateState ⟨[("a", "n"), ("b", "n")], [], [("data:a", "old")]⟩
        ["a", "b"] "n" ["1", "2"] =
      (.ok "OK",
       { (⟨[("a", "n"), ("b", "n")], [], [("data:a", "old")]⟩ : Store) with
         data := msetData [("data:a", "old")] ["a", "b"] ["1", "2"] }) ∧
     alGet (luaUpdateState ⟨[("a", "n"), ("b", "n")], [], [("data:a", "old")]⟩
        ["a", "b"] "n" ["1", "2"]).2.data "data:b" = some "2") ∧
    luaUpdateState ⟨[("a", "n"), ("b", "m")], [], [("data:a", "old")]⟩
        ["a", "b"] "n" ["1", "2"] =
      (.error (.notOwner "b" "m" "n"),
       ⟨[("a", "n"), ("b", "m")], [], [("data:a", "old")]⟩) := by
  have h1 := (c3_batch_ownership_guard
    ⟨[("a", "n"), ("b", "n")], [], [("data:a", "old")]⟩ ["a", "b"] ["1", "2"]
    "n" (by decide) (by decide)).1 (by decide)
  have h2 := (c3_batch_ownership_guard
    ⟨[("a", "n"), ("b", "m")], [], [("data:a", "old")]⟩ ["a", "b"] ["1", "2"]
    "n" (by decide) (by decide)).2.1 "b" "m" (by decide)
  exact ⟨⟨h1.1, h1.2.1 "b" "2" (by decide)⟩, h2.2.2.2.1⟩

/-!
## Claims C7 and C8 — write coalescing
-/

/-- Claim C7: with `maxPendingUpdates = 1` (the default) coalescing is
disabled and every `updateState` immediately issues one single-id
ownership-guarded write; with `maxPendingUpdates > 1` every call appends
its entry to the in-memory pending batch, and the batch is flushed as one
multi-id write exactly when its length reaches `maxPendingUpdates`;
independently, the periodic cron tick flushes a non-empty batch as one
multi-id write and is a no-op on an empty batch (the configuration
loader's `|| 1` default makes `1 ≤ maxPendingUpdates` an invariant). -/
theorem c7_coalescing_flush (p : CpPlug) (id value : String) (cb : Nat)
    (hmax : 1 ≤ p.maxPendingUpdates) :
    (p.maxPendingUpdates = 1 →
      updateState p id value cb =
        (p, [{ ids := [id], values := [value], cbs := [cb] }])) ∧
    (p.maxPendingUpdates ≠ 1 →
      (p.pendingUpdates.length + 1 < p.maxPendingUpdates →
        updateState p id value cb =
          ({ p with pendingUpdates :=
              p.pendingUpdates ++ [(⟨id, value, cb⟩ : Pending)] },
           [])) ∧
      (p.maxPendingUpdates ≤ p.pendingUpdates.length + 1 →
        updateState p id value cb =
          ({ p with pendingUpdates := [] },
           [{ ids := List.map Pending.id
                (p.pendingUpdates ++ [(⟨id, value, cb⟩ : Pending)]),
              values := List.map Pending.value
                (p.pendingUpdates ++ [(⟨id, value, cb⟩ : Pending)]),
              cbs := List.map Pending.cb
                (p.pendingUpdates ++ [(⟨id, value, cb⟩ : Pending)]) }])))
    ∧
    (0 < p.pendingUpdates.length →
      cronTick p =
        ({ p with pendingUpdates := [] },
         [{ ids := List.map Pending.id p.pendingUpdates,
            values := List.map Pending.value p.pendingUpdates,
            cbs := List.map Pending.cb p.pendingUpdates }])) ∧
    (p.pendingUpdates = [] → cronTick p = (p, [])) := by
  refine ⟨fun h1 => ?_, fun hne => ⟨fun hlt => ?_, fun hge => ?_⟩,
    fun hpos => ?_, fun hemp => ?_⟩
  · simp [updateState, h1]
  · have h1 : ¬p.maxPendingUpdates ≤ p.pendingUpdates.length + 1 := by omega
    simp [updateState, hne, flushUpdateState, List.length_append, h1]
  · have h1 : p.maxPendingUpdates ≤ p.pendingUpdates.length + 1 := hge
    simp [updateState, hne, flushUpdateState, List.length_append, h1]
  · simp [cronTick, flushUpdateState, hpos]
  · have h0 : ¬p.maxPendingUpdates ≤ 0 := by omega
    simp [cronTick, flushUpdateState, hemp, h0]


/-- Witness for C7 at concrete inputs: with `maxPendingUpdates = 3`, a
third `updateState` fills the batch and triggers exactly one three-id
write; the cron tick on an empty batch does nothing. -/
theorem c7_witness :
    updateState ⟨3, [⟨"a", "1", 1⟩, ⟨"b", "2", 2⟩]⟩ "c" "3" 3 =
      (⟨3, []⟩,
       [{ ids := List.map Pending.id
            ([⟨"a", "1", 1⟩, ⟨"b", "2", 2⟩] ++ [(⟨"c", "3", 3⟩ : Pending)]),
          values := List.map Pending.value
            ([⟨"a", "1", 1⟩, ⟨"b", "2", 2⟩] ++ [(⟨"c", "3", 3⟩ : Pending)]),
          cbs := List.map Pending.cb
            ([⟨"a", "1", 1⟩, ⟨"b", "2", 2⟩] ++ [(⟨"c", "3", 3⟩ : Pending)]) }]) ∧
    cronTick ⟨3, []⟩ = (⟨3, []⟩, []) :=
  ⟨((c7_coalescing_flush ⟨3, [⟨"a", "1", 1⟩, ⟨"b", "2", 2⟩]⟩ "c" "3" 3
      (by decide)).2.1 (by decide)).2 (by decide),
   (c7_coalescing_flush ⟨3, []⟩ "c" "3" 3 (by decide)).2.2.2 rfl⟩

/-- Claim C8: a failed coalesced flush is never retried as a batch — the
flush completion turns every entry of the failed batch into an individual
single-id resubmission scheduled for a next tick (so an entry whose id is
still owned by the caller succeeds despite the bad id, proved here by
composing the retry with the ownership-guarded single-id write), and on a
successful flush every queued caller is notified with the shared result on
a next tick rather than synchronously (every emitted continuation is a
`Deferred`, the model of `process.nextTick`). -/
theorem c8_failed_flush_retries_individually (w : WriteOp) (e : LuaErr)
    (st : Store) (nodeId : String) :
    (onFlushResult w (some e) =
      (List.zip (List.zip w.ids w.values) w.cbs).map
        (fun x => .retryOne x.1.1 x.1.2 x.2)) ∧
    (∀ x ∈ List.zip (List.zip w.ids w.values) w.cbs,
      Deferred.retryOne x.1.1 x.1.2 x.2 ∈ onFlushResult w (some e)) ∧
    (∀ d ∈ onFlushResult w (some e), ∃ id v c, d = Deferred.retryOne id v c) ∧
    (∀ id v, (id, v) ∈ List.zip w.ids w.values →
      alGet st.owners id = some nodeId →
      luaUpdateState st [id] nodeId [v] =
        (.ok "OK", { st with data := alSet st.data ("data:" ++ id) v })) ∧
    (onFlushResult w none = w.cbs.map (fun c => Deferred.notify c none)) := by
  refine ⟨rfl, fun x hx => ?_, fun d hd => ?_, fun id v hzip hown => ?_, rfl⟩
  · exact List.mem_map_of_mem _ hx
  · obtain ⟨x, _, hx2⟩ := List.mem_map.mp hd
    exact ⟨x.1.1, x.1.2, x.2, hx2.symm⟩
  · have hchk : checkOwners st.owners [id] nodeId = none := by
      simp [checkOwners, hown]
    simp [luaUpdateState, hchk, msetData]

/-- Witness for C8 at concrete inputs: a failed three-entry flush yields
the three individual deferred retries; the entry `("a", "1")`, whose id is
still owned by `n`, succeeds when retried individually even though `b`
lost its lease to `m`. -/
theorem c8_witness :
    onFlushResult ⟨["a", "b"], ["1", "2"], [1, 2]⟩ (some (.notOwner "b" "m" "n")) =
      [Deferred.retryOne "a" "1" 1, Deferred.retryOne "b" "2" 2] ∧
    luaUpdateState ⟨[("a", "n"), ("b", "m")], [], []⟩ ["a"] "n" ["1"] =
      (.ok "OK",
       { (⟨[("a", "n"), ("b", "m")], [], []⟩ : Store) with
         data := alSet [] "data:a" "1" }) ∧
    onFlushResult ⟨["a", "b"], ["1", "2"], [1, 2]⟩ none =
      [Deferred.notify 1 none, Deferred.notify 2 none] := by
  have h := c8_failed_flush_retries_individually
    ⟨["a", "b"], ["1", "2"], [1, 2]⟩ (.notOwner "b" "m" "n")
    ⟨[("a", "n"), ("b", "m")], [], []⟩ "n"
  refine ⟨?_, ?_, ?_⟩
  · rw [h.1]; decide
  · have h2 := h.2.2.2.1 "a" "1" (by decide) (by decide)
    rw [h2]
    rfl
  · rw [h.2.2.2.2]; decide

/-!
## Claims C1, C2, C9 — the transactional message pipeline
-/

theorem caAbort_isShutdown (ca : CA) :
    (caAbort ca).isShutdown = ca.isShutdown := by
  unfold caAbort
  rcases hsb : ca.stateBackup with _ | s <;> simp [hsb] <;> split <;> rfl

theorem caAbort_name (ca : CA) : (caAbort ca).name = ca.name := by
  unfold caAbort
  rcases hsb : ca.stateBackup with _ | s <;> simp [hsb] <;> split <;> rfl

theorem caAbort_restores (ca : CA) (s : JsVal) (hs : ca.stateBackup = some s)
    (hv : truthy ca.versionBackup = true) :
    (caAbort ca).state = s ∧ (caAbort ca).version = ca.versionBackup := by
  unfold caAbort
  simp [hs, hv]

theorem getSystemErrorCode_systemErrorOf_request (m : Meta)
    (method rid : String) (code : Int) (text : String) (hc : code ≠ 0) :
    getSystemErrorCode (systemErrorOf (Msg.request m method rid) code text) =
      some code := by
  simp [systemErrorOf, getSystemErrorCode, msgId, hc]

theorem isSystemError_systemErrorOf_request (m : Meta)
    (method rid : String) (code : Int) (text : String) (hc : code ≠ 0) :
    isSystemError (systemErrorOf (Msg.request m method rid) code text) = true := by
  simp [systemErrorOf, isSystemError, msgId, hc]

/-- Claim C1, counterexample: a request whose method completes with the
truthy application error "boom" does not commit — the pipeline invokes the
transactional children's abort, skips commit, and persists nothing,
although the claim states that no abort is invoked and the transaction
still commits normally (the `(error, data)` pair is indeed returned to
the caller as an ordinary application reply). -/
theorem c1_counterexample :
    (processMsg ⟨"ca", .str "s0", .str "v", none, .undef, false⟩
        (Msg.request ⟨"tok", "sess", "you", "me"⟩ "doIt" "42")
        ⟨.str "s1", .str "v", .str "boom", .null, none, none, none⟩).abortCalled
      = true ∧
    (processMsg ⟨"ca", .str "s0", .str "v", none, .undef, false⟩
        (Msg.request ⟨"tok", "sess", "you", "me"⟩ "doIt" "42")
        ⟨.str "s1", .str "v", .str "boom", .null, none, none, none⟩).commitCalled
      = false ∧
    (processMsg ⟨"ca", .str "s0", .str "v", none, .undef, false⟩
        (Msg.request ⟨"tok", "sess", "you", "me"⟩ "doIt" "42")
        ⟨.str "s1", .str "v", .str "boom", .null, none, none, none⟩).persisted
      = none ∧
    (processMsg ⟨"ca", .str "s0", .str "v", none, .undef, false⟩
        (Msg.request ⟨"tok", "sess", "you", "me"⟩ "doIt" "42")
        ⟨.str "s1", .str "v", .str "boom", .null, none, none, none⟩).reply
      = some (Msg.appReply ⟨"tok", "sess", "me", "you"⟩ (.str "boom") .null "42") := by
  refine ⟨?_, ?_, ?_, ?_⟩ <;> decide

/-- Claim C1 (amended): for every request whose dispatched method completes
with a truthy application-level error, the `(error, data)` pair is returned
to the caller as an ordinary application reply and the agent is not shut
down, but the pipeline does not commit: the transactional children's abort
is invoked (the message's mutations are rolled back), commit never runs,
and nothing is persisted. -/
theorem c1_app_error_rolls_back (ca : CA) (m : Meta) (method rid : String)
    (o : Outcomes) (hsd : ca.isShutdown = false) (hrid : rid ≠ "")
    (herr : truthy o.callError = true) :
    (processMsg ca (Msg.request m method rid) o).reply =
      some (appReplyOf (Msg.request m method rid) o.callError o.callData) ∧
    (processMsg ca (Msg.request m method rid) o).abortCalled = true ∧
    (processMsg ca (Msg.request m method rid) o).commitCalled = false ∧
    (processMsg ca (Msg.request m method rid) o).persisted = none ∧
    (processMsg ca (Msg.request m method rid) o).ca.isShutdown = false ∧
    (processMsg ca (Msg.request m method rid) o).crashed = false := by
  have hb : (caBegin ca).isShutdown = false := hsd
  simp only [processMsg, hb, Bool.false_eq_true, if_false, herr, if_true,
    isNotificationMsg]
  have hcode : getSystemErrorCode (appReplyOf (Msg.request m method rid)
      o.callError o.callData) = none := rfl
  have happ : isAppReply (appReplyOf (Msg.request m method rid)
      o.callError o.callData) = true := by
    simp [isAppReply, appReplyOf, msgId, hrid]
  simp only [handleError, hcode, ofHandle, happ]
  simp [caAbort_isShutdown, caBegin]

/-- Witness for C1 at concrete inputs. -/
theorem c1_witness :
    (processMsg ⟨"ca", .str "s0", .num 7, none, .undef, false⟩
        (Msg.request ⟨"t", "s", "a", "b"⟩ "m" "9")
        ⟨.str "s1", .num 7, .num 1, .str "d", none, none, none⟩).reply =
      some (appReplyOf (Msg.request ⟨"t", "s", "a", "b"⟩ "m" "9")
        (JsVal.num 1) (JsVal.str "d")) ∧
    (processMsg ⟨"ca", .str "s0", .num 7, none, .undef, false⟩
        (Msg.request ⟨"t", "s", "a", "b"⟩ "m" "9")
        ⟨.str "s1", .num 7, .num 1, .str "d", none, none, none⟩).abortCalled = true ∧
    (processMsg ⟨"ca", .str "s0", .num 7, none, .undef, false⟩
        (Msg.request ⟨"t", "s", "a", "b"⟩ "m" "9")
        ⟨.str "s1", .num 7, .num 1, .str "d", none, none, none⟩).commitCalled = false ∧
    (processMsg ⟨"ca", .str "s0", .num 7, none, .undef, false⟩
        (Msg.request ⟨"t", "s", "a", "b"⟩ "m" "9")
        ⟨.str "s1", .num 7, .num 1, .str "d", none, none, none⟩).persisted = none ∧
    (processMsg ⟨"ca", .str "s0", .num 7, none, .undef, false⟩
        (Msg.request ⟨"t", "s", "a", "b"⟩ "m" "9")
        ⟨.str "s1", .num 7, .num 1, .str "d", none, none, none⟩).ca.isShutdown = false ∧
    (processMsg ⟨"ca", .str "s0", .num 7, none, .undef, false⟩
        (Msg.request ⟨"t", "s", "a", "b"⟩ "m" "9")
        ⟨.str "s1", .num 7, .num 1, .str "d", none, none, none⟩).crashed = false :=
  c1_app_error_rolls_back ⟨"ca", .str "s0", .num 7, none, .undef, false⟩
    ⟨"t", "s", "a", "b"⟩ "m" "9"
    ⟨.str "s1", .num 7, .num 1, .str "d", none, none, none⟩
    rfl (by decide) (by decide)

/-- Claim C2, counterexample: when the checkpoint write fails, the caller
receives a `shutdownCA` (shutdown-agent, -32001) system error, not the
`checkpointFailure` (-32002) error the claim promises (the rest of the
claim — shutdown flag set, no abort, later messages rejected — holds). -/
theorem c2_counterexample :
    (processMsg ⟨"ca", .str "s0", .str "v", none, .undef, false⟩
        (Msg.request ⟨"tok", "sess", "you", "me"⟩ "doIt" "42")
        ⟨.str "s1", .str "v", .null, .str "d", none, some "store down", none⟩).reply
      = some (Msg.sysError ⟨"tok", "sess", "me", "you"⟩
          ERROR_CODES.shutdownCA "[object Object]" none (some "42")) ∧
    ERROR_CODES.shutdownCA ≠ ERROR_CODES.checkpointFailure := by
  constructor <;> decide

/-- Claim C2 (amended): if a message's checkpoint write (wrapped as
`checkpointFailure`) or commit step (wrapped as `commitFailure`) fails,
the pipeline never invokes abort on the transactional children; the
agent's shutdown flag becomes true, every message enqueued afterwards is
rejected with a shutdown error, and the caller of the failed message
receives a shutdown-agent (`shutdownCA`) system error — not a
`checkpointFailure` error. -/
theorem c2_persist_commit_failure_shutdown (ca : CA) (m : Meta)
    (method rid : String) (o : Outcomes) (m2 : Meta) (method2 rid2 : String)
    (o2 : Outcomes) (e : String) (hsd : ca.isShutdown = false)
    (herr : truthy o.callError = false) (hprep : o.prepareError = none) :
    (o.cpError = some e →
      (processMsg ca (Msg.request m method rid) o).abortCalled = false ∧
      (processMsg ca (Msg.request m method rid) o).commitCalled = false ∧
      (processMsg ca (Msg.request m method rid) o).persisted = none ∧
      (processMsg ca (Msg.request m method rid) o).ca.isShutdown = true ∧
      (processMsg ca (Msg.request m method rid) o).reply =
        some (systemErrorOf (Msg.request m method rid)
          ERROR_CODES.shutdownCA "[object Object]") ∧
      (caProcess (processMsg ca (Msg.request m method rid) o).ca
          (Msg.request m2 method2 rid2) o2).reply =
        some (systemErrorOf (Msg.request m2 method2 rid2)
          ERROR_CODES.shutdownCA ("CA " ++ ca.name ++ " shutdown0")) ∧
      (caProcess (processMsg ca (Msg.request m method rid) o).ca
          (Msg.request m2 method2 rid2) o2).persisted = none) ∧
    (o.cpError = none → o.commitError = some e →
      (processMsg ca (Msg.request m method rid) o).abortCalled = false ∧
      (processMsg ca (Msg.request m method rid) o).ca.isShutdown = true ∧
      (processMsg ca (Msg.request m method rid) o).reply =
        some (systemErrorOf (Msg.request m method rid)
          ERROR_CODES.shutdownCA "[object Object]")) := by
  have hb : (caBegin ca).isShutdown = false := hsd
  constructor
  · intro hcp
    have hred : processMsg ca (Msg.request m method rid) o =
        ofHandle (handleError
          { caBegin ca with state := o.newState, version := o.newVersion }
          (Msg.request m method rid)
          (systemErrorOf (Msg.request m method rid)
            ERROR_CODES.checkpointFailure
            ("updateState " ++ (caBegin ca).name ++ " " ++ e)) none)
          false none := by
      simp [processMsg, hb, herr, isNotificationMsg, afterCall, hprep, hcp]
    have hcode : getSystemErrorCode (systemErrorOf (Msg.request m method rid)
        ERROR_CODES.checkpointFailure
        ("updateState " ++ (caBegin ca).name ++ " " ++ e)) =
        some ERROR_CODES.checkpointFailure :=
      getSystemErrorCode_systemErrorOf_request m method rid _ _ (by decide)
    rw [hred]
    simp only [handleError, hcode, or_true, if_true]
    refine ⟨rfl, rfl, rfl, rfl, rfl, ?_, ?_⟩ <;>
      simp [ofHandle, caProcess, caShutdown, caBegin, newShutdownText]
  · intro hcp hcm
    have hred : processMsg ca (Msg.request m method rid) o =
        ofHandle (handleError
          { caBegin ca with state := o.newState, version := o.newVersion }
          (Msg.request m method rid)
          (systemErrorOf (Msg.request m method rid)
            ERROR_CODES.commitFailure
            ("commitFailure " ++ (caBegin ca).name ++ " " ++ e)) none)
          true (some (o.newState, o.newVersion)) := by
      simp [processMsg, hb, herr, isNotificationMsg, afterCall, hprep, hcp, hcm]
    have hcode : getSystemErrorCode (systemErrorOf (Msg.request m method rid)
        ERROR_CODES.commitFailure
        ("commitFailure " ++ (caBegin ca).name ++ " " ++ e)) =
        some ERROR_CODES.commitFailure :=
      getSystemErrorCode_systemErrorOf_request m method rid _ _ (by decide)
    rw [hred]
    simp only [handleError, hcode, true_or, if_true]
    exact ⟨rfl, rfl, rfl⟩

/-- Witness for C2 at concrete inputs. -/
theorem c2_witness :
    (processMsg ⟨"ca", .str "s0", .str "v", none, .undef, false⟩
        (Msg.request ⟨"t", "s", "a", "b"⟩ "m" "9")
        ⟨.str "s1", .str "v", .null, .null, none, some "down", none⟩).abortCalled
      = false ∧
    (processMsg ⟨"ca", .str "s0", .str "v", none, .undef, false⟩
        (Msg.request ⟨"t", "s", "a", "b"⟩ "m" "9")
        ⟨.str "s1", .str "v", .null, .null, none, some "down", none⟩).commitCalled
      = false ∧
    (processMsg ⟨"ca", .str "s0", .str "v", none, .undef, false⟩
        (Msg.request ⟨"t", "s", "a", "b"⟩ "m" "9")
        ⟨.str "s1", .str "v", .null, .null, none, some "down", none⟩).persisted
      = none ∧
    (processMsg ⟨"ca", .str "s0", .str "v", none, .undef, false⟩
        (Msg.request ⟨"t", "s", "a", "b"⟩ "m" "9")
        ⟨.str "s1", .str "v", .null, .null, none, some "down", none⟩).ca.isShutdown
      = true ∧
    (processMsg ⟨"ca", .str "s0", .str "v", none, .undef, false⟩
        (Msg.request ⟨"t", "s", "a", "b"⟩ "m" "9")
        ⟨.str "s1", .str "v", .null, .null, none, some "down", none⟩).reply
      = some (systemErrorOf (Msg.request ⟨"t", "s", "a", "b"⟩ "m" "9")
          ERROR_CODES.shutdownCA "[object Object]") ∧
    (caProcess (processMsg ⟨"ca", .str "s0", .str "v", none, .undef, false⟩
        (Msg.request ⟨"t", "s", "a", "b"⟩ "m" "9")
        ⟨.str "s1", .str "v", .null, .null, none, some "down", none⟩).ca
        (Msg.request ⟨"t2", "s2", "a2", "b2"⟩ "m2" "10")
        ⟨.null, .null, .null, .null, none, none, none⟩).reply
      = some (systemErrorOf (Msg.request ⟨"t2", "s2", "a2", "b2"⟩ "m2" "10")
          ERROR_CODES.shutdownCA ("CA " ++ "ca" ++ " shutdown0")) ∧
    (caProcess (processMsg ⟨"ca", .str "s0", .str "v", none, .undef, false⟩
        (Msg.request ⟨"t", "s", "a", "b"⟩ "m" "9")
        ⟨.str "s1", .str "v", .null, .null, none, some "down", none⟩).ca
        (Msg.request ⟨"t2", "s2", "a2", "b2"⟩ "m2" "10")
        ⟨.null, .null, .null, .null, none, none, none⟩).persisted = none :=
  (c2_persist_commit_failure_shutdown
    ⟨"ca", .str "s0", .str "v", none, .undef, false⟩ ⟨"t", "s", "a", "b"⟩
    "m" "9" ⟨.str "s1", .str "v", .null, .null, none, some "down", none⟩
    ⟨"t2", "s2", "a2", "b2"⟩ "m2" "10" ⟨.null, .null, .null, .null, none, none, none⟩
    "down" rfl (by decide) rfl).1 rfl

/-- Claim C9, counterexample: an agent whose observable state `S0` has
`version = 0` (falsy). The handler sets `version` to 1 and prepare fails;
the default abort skips restoring a falsy backup, so after abort the
agent's version is still 1 — the observable state is not exactly `S0`
(the state value itself is restored, the version is not). -/
theorem c9_counterexample :
    (processMsg ⟨"ca", .str "s0", .num 0, none, .undef, false⟩
        (Msg.request ⟨"tok", "sess", "you", "me"⟩ "doIt" "42")
        ⟨.str "s0", .num 1, .null, .null, some "bad", none, none⟩).ca.version
      = JsVal.num 1 ∧
    (⟨"ca", .str "s0", .num 0, none, .undef, false⟩ : CA).version = JsVal.num 0 ∧
    JsVal.num 1 ≠ JsVal.num 0 ∧
    (processMsg ⟨"ca", .str "s0", .num 0, none, .undef, false⟩
        (Msg.request ⟨"tok", "sess", "you", "me"⟩ "doIt" "42")
        ⟨.str "s0", .num 1, .null, .null, some "bad", none, none⟩).abortCalled
      = true := by
  refine ⟨?_, ?_, ?_, ?_⟩ <;> decide

/-- Claim C9 (amended): for every agent whose state is `S0` when begin
snapshots it, provided the snapshotted state is a defined value and the
agent's version is truthy (the default abort silently skips falsy
backups, e.g. an undefined state or a zero version), a request that fails
during prepare leaves the agent's observable `state` and `version` exactly
at `S0` after abort, nothing is persisted, and the caller receives a
`prepareFailure` system error rather than a partial update. -/
theorem c9_abort_restores_state (ca : CA) (m : Meta) (method rid : String)
    (o : Outcomes) (e : String) (hsd : ca.isShutdown = false)
    (hstate : ¬ca.state = JsVal.undef) (hver : truthy ca.version = true)
    (herr : truthy o.callError = false) (hprep : o.prepareError = some e) :
    (processMsg ca (Msg.request m method rid) o).ca.state = ca.state ∧
    (processMsg ca (Msg.request m method rid) o).ca.version = ca.version ∧
    (processMsg ca (Msg.request m method rid) o).persisted = none ∧
    (processMsg ca (Msg.request m method rid) o).abortCalled = true ∧
    (processMsg ca (Msg.request m method rid) o).reply =
      some (systemErrorOf (Msg.request m method rid)
        ERROR_CODES.prepareFailure
        ("prepareFailed " ++ ca.name ++ " " ++ e)) := by
  have hb : (caBegin ca).isShutdown = false := hsd
  have hred : processMsg ca (Msg.request m method rid) o =
      ofHandle (handleError
        { caBegin ca with state := o.newState, version := o.newVersion }
        (Msg.request m method rid)
        (systemErrorOf (Msg.request m method rid)
          ERROR_CODES.prepareFailure
          ("prepareFailed " ++ (caBegin ca).name ++ " " ++ e)) none)
        false none := by
    simp [processMsg, hb, herr, isNotificationMsg, afterCall, hprep]
  have hcode : getSystemErrorCode (systemErrorOf (Msg.request m method rid)
      ERROR_CODES.prepareFailure
      ("prepareFailed " ++ (caBegin ca).name ++ " " ++ e)) =
      some ERROR_CODES.prepareFailure :=
    getSystemErrorCode_systemErrorOf_request m method rid _ _ (by decide)
  have hcond : ¬(some ERROR_CODES.prepareFailure = some ERROR_CODES.commitFailure ∨
      some ERROR_CODES.prepareFailure = some ERROR_CODES.checkpointFailure) := by
    decide
  have hsys : isSystemError (systemErrorOf (Msg.request m method rid)
      ERROR_CODES.prepareFailure
      ("prepareFailed " ++ (caBegin ca).name ++ " " ++ e)) = true :=
    isSystemError_systemErrorOf_request m method rid _ _ (by decide)
  have hsb : (caBegin ca).stateBackup = some ca.state := by
    simp [caBegin, hstate]
  have hvb : truthy (caBegin ca).versionBackup = true := by
    simpa [caBegin] using hver
  have hrestore := caAbort_restores
    { caBegin ca with state := o.newState, version := o.newVersion }
    ca.state hsb hvb
  rw [hred]
  simp only [handleError, hcode]
  rw [if_neg hcond]
  simp only [hsys, Bool.or_true, if_true, ofHandle]
  refine ⟨hrestore.1, ?_, by trivial, by trivial, by trivial⟩
  rw [hrestore.2]
  simp [caBegin]

/-- Witness for C9 at concrete inputs. -/
theorem c9_witness :
    (processMsg ⟨"ca", .str "s0", .str "v7", none, .undef, false⟩
        (Msg.request ⟨"t", "s", "a", "b"⟩ "m" "9")
        ⟨.str "s1", .str "v8", .null, .null, some "bad", none, none⟩).ca.state
      = JsVal.str "s0" ∧
    (processMsg ⟨"ca", .str "s0", .str "v7", none, .undef, false⟩
        (Msg.request ⟨"t", "s", "a", "b"⟩ "m" "9")
        ⟨.str "s1", .str "v8", .null, .null, some "bad", none, none⟩).ca.version
      = JsVal.str "v7" ∧
    (processMsg ⟨"ca", .str "s0", .str "v7", none, .undef, false⟩
        (Msg.request ⟨"t", "s", "a", "b"⟩ "m" "9")
        ⟨.str "s1", .str "v8", .null, .null, some "bad", none, none⟩).persisted
      = none ∧
    (processMsg ⟨"ca", .str "s0", .str "v7", none, .undef, false⟩
        (Msg.request ⟨"t", "s", "a", "b"⟩ "m" "9")
        ⟨.str "s1", .str "v8", .null, .null, some "bad", none, none⟩).abortCalled
      = true ∧
    (processMsg ⟨"ca", .str "s0", .str "v7", none, .undef, false⟩
        (Msg.request ⟨"t", "s", "a", "b"⟩ "m" "9")
        ⟨.str "s1", .str "v8", .null, .null, some "bad", none, none⟩).reply
      = some (systemErrorOf (Msg.request ⟨"t", "s", "a", "b"⟩ "m" "9")
          ERROR_CODES.prepareFailure ("prepareFailed " ++ "ca" ++ " " ++ "bad")) :=
  c9_abort_restores_state ⟨"ca", .str "s0", .str "v7", none, .undef, false⟩
    ⟨"t", "s", "a", "b"⟩ "m" "9"
    ⟨.str "s1", .str "v8", .null, .null, some "bad", none, none⟩ "bad"
    rfl (by decide) (by decide) (by decide) rfl

/-- Witness for C6 at a concrete input: a `noSuchCA` system error is
recoverable. -/
theorem c6_witness :
    isErrorRecoverable (Msg.sysError ⟨"t", "s", "a", "b"⟩
      ERROR_CODES.noSuchCA "m" none (some "2")) = true :=
  (c6_recoverable_codes _).mpr (Or.inl (by decide))
